import Mathlib

/-!
Shallow embedding of the risk-metrics pipeline of the engagement-survey
backend, together with proofs checking the specification's claims.

Sources embedded (Python, pandas):
  backend/api/v1/routes/insight.py   : clean_llm_json, generate_ai_summary
  backend/api/v1/routes/team.py      : calculate_risk_label
  backend/api/v1/routes/upload.py    : calculate_dimensions, calculate_overall_risk
  backend/api/v1/routes/metrics.py   : get_metrics_summary (snapshot dedup),
                                       filter_metrics, aggregate_dataframe
  backend/utils/risk_engine_helpers.py : calculate_row_metrics, calculate_survey_metrics
  backend/utils/risk_engine.py       : get_risk_summary_by_department (snapshot dedup)
  backend/utils/quarter.py           : get_quarter
  backend/utils/season_detect.py     : classify_festival_date

Modelling conventions:
  * pandas / Python floats are modelled as `ℚ`; a missing value (`None` / `NaN`)
    is `Option.none`.  Arithmetic on missing values propagates `none`, as
    NaN propagates through pandas arithmetic.
  * `.round(n)` (numpy / pandas) rounds half to even; it is modelled by
    `roundHE`.  `Decimal.quantize(..., ROUND_HALF_UP)` is modelled by `roundHU`.
  * Python strings are modelled as `List Char`; `str.strip()` is `pyStrip`.
  * The `holidays` package (external collaborator) is modelled as an explicit
    parameter `hol : ℤ → List HolidayEntry` giving the holidays of each year.
  * Python's `json.loads` (external standard library) is modelled by the
    executable recursive-descent parser `jsonLoads` below, restricted to the
    strict JSON grammar (objects, arrays, strings with escapes, numbers,
    `true`/`false`/`null`, and the Python extensions `NaN`/`Infinity`).
-/

/-! ## Basic numeric helpers -/

/-- Mean of the non-missing entries of a list; `none` when all entries are
missing (pandas `DataFrame.mean`, which skips NaN and yields NaN on an
all-NaN selection). -/
def meanOpt (l : List (Option ℚ)) : Option ℚ :=
  let v := l.filterMap id
  if v.isEmpty then none else some (v.sum / v.length)

/-- Round half to even at `p` decimal places (numpy / pandas `.round(p)`,
modelled exactly over `ℚ`). -/
def roundHE (p : ℕ) (x : ℚ) : ℚ :=
  let n : ℚ := x * (10 : ℚ) ^ p
  let k : ℤ := ⌊n⌋
  let f : ℚ := n - k
  let r : ℤ :=
    if f > 1/2 then k + 1
    else if f < 1/2 then k
    else if k % 2 = 0 then k else k + 1
  (r : ℚ) / (10 : ℚ) ^ p

/-- Round half away from zero at `p` decimal places
(`Decimal.quantize(Decimal("0.01"), rounding=ROUND_HALF_UP)` in `safe_decimal`). -/
def roundHU (p : ℕ) (x : ℚ) : ℚ :=
  let s : ℚ := (10 : ℚ) ^ p
  if 0 ≤ x then ((⌊x * s + 1/2⌋ : ℤ) : ℚ) / s
  else -(((⌊-x * s + 1/2⌋ : ℤ) : ℚ) / s)

/-- pandas `.clip(0, 100)`. -/
def clip0100 (x : ℚ) : ℚ := max 0 (min 100 x)

/-- The Likert-to-percent transform used by every rate computation in
`risk_engine_helpers.py`: `((x - 1) / 4 * 100).clip(0, 100)`. -/
def pctClip (x : ℚ) : ℚ := clip0100 ((x - 1) / 4 * 100)

/-! ## Character and string helpers (Python strings as `List Char`) -/

/-- Python `str.strip()` whitespace set: space, tab, newline, carriage
return, vertical tab, form feed. -/
def pyWs (c : Char) : Bool :=
  c = ' ' || c = '\t' || c = '\n' || c = '\r' || c.toNat = 11 || c.toNat = 12

/-- Python regex `\s` matches the same six characters (ASCII range). -/
def reWs (c : Char) : Bool := pyWs c

/-- Python `str.strip()`. -/
def pyStrip (cs : List Char) : List Char :=
  ((cs.dropWhile pyWs).reverse.dropWhile pyWs).reverse

def isAsciiDigit (c : Char) : Bool := 48 ≤ c.toNat && c.toNat ≤ 57

def isAsciiAlpha (c : Char) : Bool :=
  (65 ≤ c.toNat && c.toNat ≤ 90) || (97 ≤ c.toNat && c.toNat ≤ 122)

/-- Python `str.lower()` (ASCII part; department names in the data are ASCII). -/
def lcChar (c : Char) : Char :=
  if 65 ≤ c.toNat && c.toNat ≤ 90 then Char.ofNat (c.toNat + 32) else c

/-- Python `str.upper()` (ASCII part). -/
def ucChar (c : Char) : Char :=
  if 97 ≤ c.toNat && c.toNat ≤ 122 then Char.ofNat (c.toNat - 32) else c

def lcList (cs : List Char) : List Char := cs.map lcChar

def ucList (cs : List Char) : List Char := cs.map ucChar

/-- Does `cs` start with `pre`? (Python `str.startswith`). -/
def listStarts : List Char → List Char → Bool
  | _, [] => true
  | [], _ :: _ => false
  | c :: cs, d :: ds => c = d && listStarts cs ds

/-- Does `sub` occur as a contiguous substring of `cs`? (Python `in`). -/
def listHasSub (cs sub : List Char) : Bool :=
  match cs with
  | [] => listStarts [] sub
  | _ :: rest => listStarts cs sub || listHasSub rest sub

/-- Index of the first occurrence of `c` (Python `str.find`, `none` for -1). -/
def firstIdx (cs : List Char) (c : Char) : Option ℕ := cs.findIdx? (· = c)

/-- Index of the last occurrence of `c` (Python `str.rfind`, `none` for -1). -/
def lastIdx (cs : List Char) (c : Char) : Option ℕ :=
  match firstIdx cs.reverse c with
  | none => none
  | some j => some (cs.length - 1 - j)

/-- Decimal digits of a natural number as characters (numbers in this
development are question indices 1–30 and years, all < 10000). -/
def natChars (n : ℕ) : List Char :=
  let d (k : ℕ) : Char := Char.ofNat (48 + k % 10)
  if n < 10 then [d n]
  else if n < 100 then [d (n / 10), d n]
  else if n < 1000 then [d (n / 100), d (n / 10), d n]
  else [d (n / 1000), d (n / 100), d (n / 10), d n]

/-- Joins string pieces with `", "` (Python `", ".join(...)`). -/
def joinComma (l : List (List Char)) : List Char :=
  match l with
  | [] => []
  | [x] => x
  | x :: rest => x ++ (',' :: ' ' :: joinComma rest)

/-! ## JSON values and `json.loads` (model of the Python standard library) -/

/-- JSON values.  Numbers keep their source lexeme: no numeric JSON ever
flows through the insight endpoint's repair pipeline, so no arithmetic on
parsed numbers is needed. -/
inductive Json where
  | jnull : Json
  | jbool : Bool → Json
  | jnum : List Char → Json
  | jstr : List Char → Json
  | jarr : List Json → Json
  | jobj : List (List Char × Json) → Json

/-- JSON whitespace accepted by `json.loads` between tokens. -/
def isJWs (c : Char) : Bool := c = ' ' || c = '\t' || c = '\n' || c = '\r'

def hexVal (c : Char) : Option ℕ :=
  if 48 ≤ c.toNat && c.toNat ≤ 57 then some (c.toNat - 48)
  else if 97 ≤ c.toNat && c.toNat ≤ 102 then some (c.toNat - 87)
  else if 65 ≤ c.toNat && c.toNat ≤ 70 then some (c.toNat - 55)
  else none

/-- Parse a JSON string body (after the opening quote), processing escape
sequences; returns the decoded characters and the input after the closing
quote. -/
def pStrBody : ℕ → List Char → Option (List Char × List Char)
  | 0, _ => none
  | fuel + 1, cs =>
    match cs with
    | [] => none
    | '"' :: rest => some ([], rest)
    | '\\' :: e :: rest =>
      let cont (decoded : Char) (r : List Char) : Option (List Char × List Char) :=
        match pStrBody fuel r with
        | some (s, r2) => some (decoded :: s, r2)
        | none => none
      match e with
      | '"' => cont '"' rest
      | '\\' => cont '\\' rest
      | '/' => cont '/' rest
      | 'b' => cont '\x08' rest
      | 'f' => cont '\x0c' rest
      | 'n' => cont '\n' rest
      | 'r' => cont '\r' rest
      | 't' => cont '\t' rest
      | 'u' =>
        match rest with
        | a :: b :: c :: d :: r2 =>
          match hexVal a, hexVal b, hexVal c, hexVal d with
          | some ha, some hb, some hc, some hd =>
            cont (Char.ofNat (((ha * 16 + hb) * 16 + hc) * 16 + hd)) r2
          | _, _, _, _ => none
        | _ => none
      | _ => none
    | c :: rest =>
      match pStrBody fuel rest with
      | some (s, r2) => some (c :: s, r2)
      | none => none

/-- Parse a JSON number lexeme: `-?(0|[1-9][0-9]*)(\.[0-9]+)?([eE][+-]?[0-9]+)?`. -/
def pNumLex (cs : List Char) : Option (List Char × List Char) :=
  let (sign, cs1) :=
    match cs with
    | '-' :: r => (['-'], r)
    | _ => (([] : List Char), cs)
  let intPart : Option (List Char × List Char) :=
    match cs1 with
    | '0' :: r => some (['0'], r)
    | c :: _ =>
      if 49 ≤ c.toNat && c.toNat ≤ 57 then
        some (cs1.takeWhile isAsciiDigit, cs1.dropWhile isAsciiDigit)
      else none
    | [] => none
  match intPart with
  | none => none
  | some (ip, cs2) =>
    let fracPart : Option (List Char × List Char) :=
      match cs2 with
      | '.' :: r =>
        let ds := r.takeWhile isAsciiDigit
        if ds.isEmpty then none else some ('.' :: ds, r.dropWhile isAsciiDigit)
      | _ => some ([], cs2)
    match fracPart with
    | none => none
    | some (fp, cs3) =>
      let expPart : Option (List Char × List Char) :=
        match cs3 with
        | e :: r =>
          if e = 'e' || e = 'E' then
            let (sg, r2) :=
              match r with
              | '+' :: r3 => (['+'], r3)
              | '-' :: r3 => (['-'], r3)
              | _ => (([] : List Char), r)
            let ds := r2.takeWhile isAsciiDigit
            if ds.isEmpty then none
            else some (e :: (sg ++ ds), r2.dropWhile isAsciiDigit)
          else some ([], cs3)
        | [] => some ([], cs3)
      match expPart with
      | none => none
      | some (ep, cs4) => some (sign ++ ip ++ fp ++ ep, cs4)

mutual

/-- Parse one JSON value (after skipping leading whitespace). -/
def pVal : ℕ → List Char → Option (Json × List Char)
  | 0, _ => none
  | fuel + 1, cs =>
    let cs := cs.dropWhile isJWs
    match cs with
    | '\x7b' :: rest =>
      let rest2 := rest.dropWhile isJWs
      match rest2 with
      | '\x7d' :: r2 => some (.jobj [], r2)
      | _ =>
        match pMembers fuel rest with
        | some (fs, r2) => some (.jobj fs, r2)
        | none => none
    | '[' :: rest =>
      let rest2 := rest.dropWhile isJWs
      match rest2 with
      | ']' :: r2 => some (.jarr [], r2)
      | _ =>
        match pElems fuel rest with
        | some (vs, r2) => some (.jarr vs, r2)
        | none => none
    | '"' :: rest =>
      match pStrBody rest.length rest with
      | some (s, r) => some (.jstr s, r)
      | none => none
    | _ =>
      if listStarts cs "true".data then some (.jbool true, cs.drop 4)
      else if listStarts cs "false".data then some (.jbool false, cs.drop 5)
      else if listStarts cs "null".data then some (.jnull, cs.drop 4)
      else if listStarts cs "NaN".data then some (.jnum "NaN".data, cs.drop 3)
      else if listStarts cs "Infinity".data then some (.jnum "Infinity".data, cs.drop 8)
      else if listStarts cs "-Infinity".data then some (.jnum "-Infinity".data, cs.drop 9)
      else
        match pNumLex cs with
        | some (l, r) => some (.jnum l, r)
        | none => none

/-- Parse the elements of a non-empty JSON array, up to and including `]`. -/
def pElems : ℕ → List Char → Option (List Json × List Char)
  | 0, _ => none
  | fuel + 1, cs =>
    match pVal fuel cs with
    | none => none
    | some (v, r) =>
      let r := r.dropWhile isJWs
      match r with
      | ',' :: r2 =>
        match pElems fuel r2 with
        | some (vs, r3) => some (v :: vs, r3)
        | none => none
      | ']' :: r2 => some ([v], r2)
      | _ => none

/-- Parse the members of a non-empty JSON object, up to and including the
closing brace. -/
def pMembers : ℕ → List Char → Option (List (List Char × Json) × List Char)
  | 0, _ => none
  | fuel + 1, cs =>
    let cs := cs.dropWhile isJWs
    match cs with
    | '"' :: rest =>
      match pStrBody rest.length rest with
      | none => none
      | some (key, r) =>
        let r := r.dropWhile isJWs
        match r with
        | ':' :: r2 =>
          match pVal fuel r2 with
          | none => none
          | some (v, r3) =>
            let r3 := r3.dropWhile isJWs
            match r3 with
            | ',' :: r4 =>
              match pMembers fuel r4 with
              | some (fs, r5) => some ((key, v) :: fs, r5)
              | none => none
            | '\x7d' :: r4 => some ([(key, v)], r4)
            | _ => none
        | _ => none
    | _ => none

end

/-- `json.loads`: parse a complete JSON document; trailing whitespace is
allowed, any other trailing text is an error.  The fuel `2 * length + 8`
dominates the recursion depth: every two consecutive recursive calls
consume at least one input character. -/
def jsonLoads (cs : List Char) : Option Json :=
  match pVal (2 * cs.length + 8) cs with
  | some (v, r) => if (r.dropWhile isJWs).isEmpty then some v else none
  | none => none

/-! ## `insight.py`: LLM output repair pipeline -/

/-- Regex `^```[a-zA-Z]*\s*` removal: if the text starts with a code fence,
drop the backticks, the language tag, and following whitespace. -/
def stripLeadFence (cs : List Char) : List Char :=
  if listStarts cs "```".data then
    ((cs.drop 3).dropWhile isAsciiAlpha).dropWhile reWs
  else cs

/-- Regex `\s*```$` removal: if the text ends with a code fence, drop it and
the whitespace immediately before it. -/
def stripTrailFence (cs : List Char) : List Char :=
  let r := cs.reverse
  if listStarts r "```".data then ((r.drop 3).dropWhile reWs).reverse else cs

/-- `raw_text[start_idx : end_idx + 1]` where `start_idx` is the first
brace and `end_idx` the last closing brace, applied only when both exist. -/
def cutBraces (cs : List Char) : List Char :=
  match firstIdx cs '\x7b', lastIdx cs '\x7d' with
  | some i, some j => (cs.drop i).take (j + 1 - i)
  | _, _ => cs

/-- Regex `[\x00-\x1F\x7F]` removal. -/
def stripCtrl (cs : List Char) : List Char :=
  cs.filter (fun c => !(c.toNat ≤ 31 || c.toNat = 127))

/-- Replace the smart quotes U+201C and U+201D by a plain double quote. -/
def fixSmartQuotes (cs : List Char) : List Char :=
  cs.map (fun c => if c.toNat = 8220 || c.toNat = 8221 then '"' else c)

/-- `insight.py` `clean_llm_json`: fence stripping (only when a fence marker
occurs), brace extraction, control-character removal, smart-quote
normalization, then `json.loads`.  `none` models the `JSONDecodeError`
that `json.loads` raises on unparseable text. -/
def clean_llm_json (raw : List Char) : Option Json :=
  let t :=
    if listHasSub raw "```".data then
      stripTrailFence (pyStrip (stripLeadFence (pyStrip raw)))
    else raw
  let t := cutBraces t
  let t := fixSmartQuotes (stripCtrl t)
  jsonLoads t

/-- The fixed fallback payload of `generate_ai_summary`. -/
def placeholderSummary : Json :=
  .jobj [("summary".data, .jstr "Data processed.".data),
         ("keyObservations".data, .jarr [])]

/-- `insight.py` `generate_ai_summary`, viewed from the LLM boundary:
`none` models an exception from the chat-completion call itself; `some raw`
is the returned message content, which the code strips and feeds to
`clean_llm_json`.  Any exception — from the call or from JSON parsing —
is caught and replaced by the fixed placeholder. -/
def generate_ai_summary (llmText : Option (List Char)) : Json :=
  match llmText with
  | none => placeholderSummary
  | some raw =>
    match clean_llm_json (pyStrip raw) with
    | some j => j
    | none => placeholderSummary

/-! ## `team.py`: risk labelling -/

/-- `team.py` `calculate_risk_label`.  `none` models a null/NaN input
(`pd.isna`). -/
def calculate_risk_label (value : Option ℚ) (metricType : String) : String :=
  match value with
  | none => "healthy"
  | some v =>
    if metricType = "score" then
      if v > 75 then "healthy"
      else if v > 65 then "watch"
      else if v ≥ 55 then "warning"
      else "critical"
    else
      if v ≤ 20 then "healthy"
      else if v ≤ 35 then "watch"
      else if v ≤ 50 then "warning"
      else "critical"

/-! ## `upload.py`: department-level overall risk -/

/-- Python `float(x) if x else 0`: `None` becomes 0; `Decimal('0')` is also
falsy in Python and becomes the same number 0. -/
def noneToZero (o : Option ℚ) : ℚ :=
  match o with
  | none => 0
  | some v => v

/-- `upload.py` `calculate_overall_risk(engagement, attrition, stress)`. -/
def calculate_overall_risk (engagement attrition stress : Option ℚ) : String :=
  let e := noneToZero engagement
  let a := noneToZero attrition
  let s := noneToZero stress
  if e < 55 ∨ s > 50 ∨ a > 50 then "critical"
  else if e < 65 ∨ s > 35 ∨ a > 35 then "warning"
  else "healthy"

/-- One survey row of a department group inside
`update_departments_from_survey`, restricted to the three columns its
aggregation reads. -/
structure DeptRow where
  engagement_rate : Option ℚ
  attrition_rate : Option ℚ
  burnout_rate : Option ℚ

/-- `upload.py` `safe_decimal` on an optional numeric: `None`/NaN stays
absent, a number is quantized to 2 decimals, rounding half up. -/
def safeDec (o : Option ℚ) : Option ℚ := o.map (roundHU 2)

/-- The three per-department inputs that `update_departments_from_survey`
passes to `calculate_overall_risk`: `safe_decimal` of the group means of
`engagement_rate`, `attrition_rate` and `burnout_rate`. -/
def deptMeanRates (rows : List DeptRow) : Option ℚ × Option ℚ × Option ℚ :=
  (safeDec (meanOpt (rows.map (·.engagement_rate))),
   safeDec (meanOpt (rows.map (·.attrition_rate))),
   safeDec (meanOpt (rows.map (·.burnout_rate))))

/-- The `overall_risk` value written for one department by the CSV-upload
sync (`update_departments_from_survey`). -/
def deptOverallRisk (rows : List DeptRow) : String :=
  calculate_overall_risk (deptMeanRates rows).1 (deptMeanRates rows).2.1
    (deptMeanRates rows).2.2

/-! ## Dates: `quarter.py`, `season_detect.py`, temporal enrichment -/

/-- A calendar date. -/
structure Ymd where
  year : ℤ
  month : ℕ
  day : ℕ
deriving DecidableEq

def isLeap (y : ℤ) : Bool := y % 4 = 0 && (y % 100 ≠ 0 || y % 400 = 0)

def daysInMonth (y : ℤ) (m : ℕ) : ℕ :=
  if m = 2 then (if isLeap y then 29 else 28)
  else if m = 4 || m = 6 || m = 9 || m = 11 then 30
  else 31

def natOfDigits (cs : List Char) : ℕ :=
  cs.foldl (fun a c => a * 10 + (c.toNat - 48)) 0

/-- `datetime.strptime(s, "%Y-%m-%d")`: strict dash-separated
year-month-day with calendar validation; `none` models the `ValueError`. -/
def parseYmd (cs : List Char) : Option Ymd :=
  match cs.splitOn '-' with
  | [ys, ms, ds] =>
    if !ys.isEmpty && ys.all isAsciiDigit && ys.length ≤ 4 &&
       !ms.isEmpty && ms.all isAsciiDigit && ms.length ≤ 2 &&
       !ds.isEmpty && ds.all isAsciiDigit && ds.length ≤ 2 then
      let y : ℤ := natOfDigits ys
      let m := natOfDigits ms
      let d := natOfDigits ds
      if 1 ≤ m && m ≤ 12 && 1 ≤ d && d ≤ daysInMonth y m then
        some ⟨y, m, d⟩
      else none
    else none
  | _ => none

/-- `pd.to_datetime(s, errors="coerce")`: pandas' lenient date parser,
modelled on the fragment exercised by this system — dash- or
slash-separated year-month-day (`none` models NaT). -/
def parseDateLenient (cs : List Char) : Option Ymd :=
  match parseYmd cs with
  | some d => some d
  | none =>
    match cs.splitOn '/' with
    | [ys, ms, ds] => parseYmd (ys ++ '-' :: ms ++ '-' :: ds)
    | _ => none

/-- `quarter.py` `get_quarter`: month 1–3 is Q1, 4–6 Q2, 7–9 Q3, else Q4;
`none` models the re-raised `ValueError` on an invalid date string. -/
def get_quarter (cs : List Char) : Option String :=
  (parseYmd cs).map (fun d =>
    if d.month ≤ 3 then "Q1"
    else if d.month ≤ 6 then "Q2"
    else if d.month ≤ 9 then "Q3"
    else "Q4")

/-- `pandas.Series.dt.month_name()`. -/
def monthName (m : ℕ) : String :=
  match m with
  | 1 => "January" | 2 => "February" | 3 => "March" | 4 => "April"
  | 5 => "May" | 6 => "June" | 7 => "July" | 8 => "August"
  | 9 => "September" | 10 => "October" | 11 => "November" | 12 => "December"
  | _ => ""

/-- Day number of a date (days since 1970-01-01, standard civil-calendar
conversion); models `datetime` subtraction yielding `.days`. -/
def daysFromCivil (dt : Ymd) : ℤ :=
  let y : ℤ := if dt.month ≤ 2 then dt.year - 1 else dt.year
  let era : ℤ := Int.fdiv y 400
  let yoe : ℤ := y - era * 400
  let mp : ℕ := if dt.month > 2 then dt.month - 3 else dt.month + 9
  let doy : ℤ := ((153 * mp + 2) / 5 : ℕ) + (dt.day : ℤ) - 1
  let doe : ℤ := yoe * 365 + Int.fdiv yoe 4 - Int.fdiv yoe 100 + doy
  era * 146097 + doe - 719468

/-- The holiday table of the external `holidays` package:
`holidays.MY(years=y)` as the list of (date, name) pairs of year `y`. -/
abbrev HolTable := ℤ → List (Ymd × List Char)

/-- `season_detect.py` `classify_festival_date(input_date, year)`, with the
holiday table as an explicit collaborator parameter.  NOTE: in the source
the `year` parameter defaults to 2026 and is *not* the year of
`input_date`. -/
def classify_festival_date (hol : HolTable) (d : Ymd) (year : ℤ) : List (List Char) :=
  let results := (hol year).filterMap (fun h =>
    let diff := daysFromCivil d - daysFromCivil h.1
    if diff = 0 then some ("festival: ".data ++ h.2)
    else if -15 ≤ diff ∧ diff < 0 then some ("pre-festival: ".data ++ h.2)
    else if 0 < diff ∧ diff ≤ 15 then some ("post-festival: ".data ++ h.2)
    else none)
  if results.isEmpty then ["normal day".data] else results

/-- The default of the `year` parameter of `classify_festival_date`. -/
def seasonDefaultYear : ℤ := 2026

/-- `quarter` cell produced by `calculate_row_metrics` for one row, given
the `submission_date` cell (`none` = NaN): `safe_quarter` returns `None`
on any parse error, and NaN dates are mapped to `None` directly. -/
def rowQuarter (sd : Option (List Char)) : Option String :=
  match sd with
  | none => none
  | some s => get_quarter s

/-- `event_season` cell produced by `calculate_row_metrics` for one row:
NaN dates give `"normal day"`, `safe_season` gives `"normal day"` on any
exception, and otherwise joins `classify_festival_date(str(d))` — called
*without* a year argument, hence with the default year 2026 — with
`", "`.  The cell is always a string (never null) when the
`submission_date` column exists. -/
def rowEventSeason (hol : HolTable) (sd : Option (List Char)) : Option (List Char) :=
  match sd with
  | none => some "normal day".data
  | some s =>
    match parseYmd s with
    | none => some "normal day".data
    | some d => some (joinComma (classify_festival_date hol d seasonDefaultYear))

/-- `month` cell produced by `calculate_row_metrics`:
`pd.to_datetime(..., errors="coerce").dt.month_name()`, NaT giving null. -/
def rowMonth (sd : Option (List Char)) : Option String :=
  sd.bind (fun s => (parseDateLenient s).map (fun d => monthName d.month))

/-- `year` cell produced by `calculate_row_metrics`:
`pd.to_datetime(..., errors="coerce").dt.year`, NaT giving null. -/
def rowYear (sd : Option (List Char)) : Option ℤ :=
  sd.bind (fun s => (parseDateLenient s).map Ymd.year)

/-- `event_season` computed by the upload path
(`process_file_background`), which *does* pass `year=dt.year`. -/
def uploadEventSeason (hol : HolTable) (d : Ymd) : List Char :=
  joinComma (classify_festival_date hol d d.year)

/-- Modelled from the spec: the event-season derivation as the claim reads
it — classified against "the public holidays of that date's own calendar
year".  Used only to compare the claimed behaviour with the code's. -/
def specEventSeasonOwnYear (hol : HolTable) (sd : Option (List Char)) : Option (List Char) :=
  match sd with
  | none => some "normal day".data
  | some s =>
    match parseYmd s with
    | none => some "normal day".data
    | some d => some (joinComma (classify_festival_date hol d d.year))

/-! ## Survey rows: `risk_engine_helpers.py` and `upload.py` dimensions -/

/-- One survey row as an ordered association of column names to cell
values (`none` = NaN or a null cell). -/
abbrev Row := List (List Char × Option ℚ)

def colNames (row : Row) : List (List Char) := row.map Prod.fst

/-- Value of a column in a row (columns are looked up only when present). -/
def cellVal (row : Row) (c : List Char) : Option ℚ :=
  match row.find? (fun p => p.1 = c) with
  | some p => p.2
  | none => none

/-- `"Q<n>_"`. -/
def qUnd (n : ℕ) : List Char := 'Q' :: natChars n ++ ['_']

/-- `"Q<n>"`. -/
def qBare (n : ℕ) : List Char := 'Q' :: natChars n

/-- `calculate_row_metrics`' local `get_col`: the first column starting
with `"Q<n>_"` or equal to `"Q<n>"`. -/
def rmGetCol (row : Row) (n : ℕ) : Option (List Char) :=
  (colNames row).find? (fun c => listStarts c (qUnd n) || c = qBare n)

/-- `calculate_row_metrics`' `dimension_map` (15-question structure). -/
def rmDimMap : List (List Char × List ℕ) :=
  [("Dim_Employee_Engagement".data, [1, 9]),
   ("Dim_Leadership".data, [2, 10]),
   ("Dim_Enablement".data, [3, 11]),
   ("Dim_Development".data, [4, 12]),
   ("Dim_Delight_Customer".data, [5, 13]),
   ("Dim_Company_Confidence".data, [6, 14]),
   ("Dim_Culture_Values".data, [7, 15]),
   ("Dim_ESG".data, [8])]

/-- Dimension cell written by `calculate_row_metrics` for question indices
`qs`: row-wise mean of the present matched columns rounded to 2 decimals,
`None` when no column matches. -/
def rmDim (row : Row) (qs : List ℕ) : Option ℚ :=
  let cs := qs.filterMap (rmGetCol row)
  if cs.isEmpty then none
  else (meanOpt (cs.map (cellVal row))).map (roundHE 2)

/-- `engagement_rate` cell of `calculate_row_metrics`:
`((Dim_Employee_Engagement - 1) / 4 * 100).clip(0, 100).round(1)`. -/
def rmEngagementRate (row : Row) : Option ℚ :=
  (rmDim row [1, 9]).map (fun d => roundHE 1 (pctClip d))

/-- `stress_rate` cell of `calculate_row_metrics`: `Stress_Score` is
`(6 - (Dim_Enablement + Dim_Culture_Values) / 2).round(2)` and the rate is
`((Stress_Score - 1) / 4 * 100).clip(0, 100).round(1)`. -/
def rmStressRate (row : Row) : Option ℚ :=
  match rmDim row [3, 11], rmDim row [7, 15] with
  | some en, some cu => some (roundHE 1 (pctClip (roundHE 2 (6 - (en + cu) / 2))))
  | _, _ => none

/-- `attrition_rate` cell of `calculate_row_metrics`: from the *raw* Q1
and Q12 columns, `None` when either column is absent;
`(((6 - (Q1 + Q12) / 2) - 1) / 4 * 100).clip(0, 100).round(1)`. -/
def rmAttritionRate (row : Row) : Option ℚ :=
  match rmGetCol row 1, rmGetCol row 12 with
  | some c1, some c12 =>
    (match cellVal row c1, cellVal row c12 with
     | some a, some b => some (roundHE 1 (pctClip (6 - (a + b) / 2)))
     | _, _ => none)
  | _, _ => none

/-- Rows on which `calculate_row_metrics` runs to completion: pandas
raises a `TypeError` while computing the stress or engagement rate when a
dimension involved in that arithmetic (`Dim_Employee_Engagement`,
`Dim_Enablement`, `Dim_Culture_Values`) has no source column at all — the
all-`None` object column assigned in step 1 does not support arithmetic.
Attrition facts about `calculate_row_metrics` therefore assume this. -/
def rmRowOk (row : Row) : Bool :=
  !([1, 9].filterMap (rmGetCol row)).isEmpty &&
  !([3, 11].filterMap (rmGetCol row)).isEmpty &&
  !([7, 15].filterMap (rmGetCol row)).isEmpty

/-- `q.split('_')[0]`. -/
def takeToUnd (q : List Char) : List Char := q.takeWhile (· ≠ '_')

/-- `calculate_survey_metrics`' column matcher for one query name: the
first column containing `q` as a substring or starting with
`q.split('_')[0]`. -/
def svGetCol (row : Row) (q : List Char) : Option (List Char) :=
  (colNames row).find? (fun c => listHasSub c q || listStarts c (takeToUnd q))

/-- `calculate_survey_metrics`' `dimension_map`. -/
def svDimMap : List (List Char × List (List Char)) :=
  [("Dim_Employee_Engagement".data, ["Q1_Recommend".data, "Q9_Proud_Work".data]),
   ("Dim_Leadership".data, ["Q2_Sup_Feedback".data, "Q10_Sup_Informed".data]),
   ("Dim_Enablement".data, ["Q3_Enablement_Tools".data, "Q11_Systems_Process".data]),
   ("Dim_Development".data, ["Q4_Sup_Career_Interest".data, "Q12_Career_Opp".data]),
   ("Dim_Delight_Customer".data, ["Q5_Quality_Services".data, "Q13_Great_Service".data]),
   ("Dim_Company_Confidence".data, ["Q6_Trust_Top_Mgmt".data, "Q14_Future_Success".data]),
   ("Dim_Culture_Values".data, ["Q7_Diversity_Inclusion".data, "Q15_Respect".data]),
   ("Dim_ESG".data, ["Q8_ESG_Community".data])]

/-- Dimension cell written by `calculate_survey_metrics`: mean of the
matched columns rounded to 2 decimals; `0.0` (not null) when no column
matches. -/
def svDim (row : Row) (queries : List (List Char)) : Option ℚ :=
  let rc := queries.filterMap (svGetCol row)
  if rc.isEmpty then some 0
  else (meanOpt (rc.map (cellVal row))).map (roundHE 2)

/-- `engagement_rate` cell of `calculate_survey_metrics`. -/
def svEngagementRate (row : Row) : Option ℚ :=
  (svDim row ["Q1_Recommend".data, "Q9_Proud_Work".data]).map
    (fun d => roundHE 1 (pctClip d))

/-- `stress_rate` cell of `calculate_survey_metrics` (`Stress_Score` is
not rounded here, unlike in `calculate_row_metrics`). -/
def svStressRate (row : Row) : Option ℚ :=
  match svDim row ["Q3_Enablement_Tools".data, "Q11_Systems_Process".data],
        svDim row ["Q7_Diversity_Inclusion".data, "Q15_Respect".data] with
  | some en, some cu => some (roundHE 1 (pctClip (6 - (en + cu) / 2)))
  | _, _ => none

/-- `calculate_survey_metrics`' Q1 column lookup:
`[c for c in data.columns if 'Q1_' in c or c == 'Q1'][0]`. -/
def svQ1Col (row : Row) : Option (List Char) :=
  (colNames row).find? (fun c => listHasSub c "Q1_".data || c = "Q1".data)

/-- `calculate_survey_metrics`' Q12 column lookup. -/
def svQ12Col (row : Row) : Option (List Char) :=
  (colNames row).find? (fun c => listHasSub c "Q12_".data || c = "Q12".data)

/-- `attrition_rate` cell of `calculate_survey_metrics`: same formula as
`calculate_row_metrics`, but the whole computation sits in a
`try/except` whose handler assigns `0.0` — so a missing Q1 or Q12 column
yields `0.0`, not null. -/
def svAttritionRate (row : Row) : Option ℚ :=
  match svQ1Col row, svQ12Col row with
  | some c1, some c12 =>
    (match cellVal row c1, cellVal row c12 with
     | some a, some b => some (roundHE 1 (pctClip (6 - (a + b) / 2)))
     | _, _ => none)
  | _, _ => some 0

/-- `upload.py` `DIMENSION_MAPPING` (30-question structure, source order). -/
def upDimMap : List (List Char × List (List Char)) :=
  [("Dim_Enablement".data,
    ["Q3_Enablement_Tools".data, "Q11_Systems_Process".data, "Q29_Health_Safety".data]),
   ("Dim_ESG".data, ["Q8_ESG_Community".data, "Q16_ESG_Environment".data]),
   ("Dim_Delight_Customer".data,
    ["Q5_Quality_Services".data, "Q13_Great_Service".data,
     "Q20_Cust_Feedback_Usage".data, "Q27_Delight_Cust".data]),
   ("Dim_Development".data,
    ["Q4_Sup_Career_Interest".data, "Q12_Career_Opp".data, "Q19_L&D_Access".data]),
   ("Dim_Culture_Values".data,
    ["Q7_Diversity_Inclusion".data, "Q15_Respect".data, "Q21_Values_Lived".data]),
   ("Dim_Company_Confidence".data,
    ["Q6_Trust_Top_Mgmt".data, "Q14_Future_Success".data, "Q24_Sup_Comm_Strategy".data]),
   ("Dim_Leadership".data,
    ["Q2_Sup_Feedback".data, "Q10_Sup_Informed".data, "Q18_Sup_Role_Model".data,
     "Q30_Sup_Recognize".data]),
   ("Dim_Employee_Engagement".data,
    ["Q1_Recommend".data, "Q9_Proud_Work".data, "Q22_Motivated_More".data,
     "Q23_Job_Sat".data, "Q25_Excited_Work".data, "Q28_Stay_2_Years".data])]

/-- `calculate_dimensions`' column matcher: the first dataframe column
starting with `map_col.split('_')[0] + "_"`. -/
def upGetCol (row : Row) (mapCol : List Char) : Option (List Char) :=
  (colNames row).find? (fun c => listStarts c (takeToUnd mapCol ++ ['_']))

/-- Dimension cell written by `upload.py` `calculate_dimensions`: row-wise
mean of the available matched columns — *not* rounded; `0.0` when no
column matches. -/
def upDim (row : Row) (mapCols : List (List Char)) : Option ℚ :=
  let av := mapCols.filterMap (upGetCol row)
  if av.isEmpty then some 0
  else meanOpt (av.map (cellVal row))

/-- The canonical 30 question column names (`DRIVER_COLUMNS` in `team.py`,
also the CSV header this system ingests), in order. -/
def canonCols : List (List Char) :=
  ["Q1_Recommend".data, "Q2_Sup_Feedback".data, "Q3_Enablement_Tools".data,
   "Q4_Sup_Career_Interest".data, "Q5_Quality_Services".data,
   "Q6_Trust_Top_Mgmt".data, "Q7_Diversity_Inclusion".data,
   "Q8_ESG_Community".data, "Q9_Proud_Work".data, "Q10_Sup_Informed".data,
   "Q11_Systems_Process".data, "Q12_Career_Opp".data, "Q13_Great_Service".data,
   "Q14_Future_Success".data, "Q15_Respect".data, "Q16_ESG_Environment".data,
   "Q17_Rarely_Look_Job".data, "Q18_Sup_Role_Model".data, "Q19_L&D_Access".data,
   "Q20_Cust_Feedback_Usage".data, "Q21_Values_Lived".data,
   "Q22_Motivated_More".data, "Q23_Job_Sat".data, "Q24_Sup_Comm_Strategy".data,
   "Q25_Excited_Work".data, "Q26_Comp_Benefits".data, "Q27_Delight_Cust".data,
   "Q28_Stay_2_Years".data, "Q29_Health_Safety".data, "Q30_Sup_Recognize".data]

/-- A full survey row over the canonical columns, with arbitrary cell
values given by `v`. -/
def canonRow (v : List Char → Option ℚ) : Row := canonCols.map (fun c => (c, v c))

/-- Canonical column name of question index `n` (1-based). -/
def canonName (n : ℕ) : List Char := canonCols.getD (n - 1) []

/-! ## `metrics.py`: quarter-grouped filtering and aggregation -/

def strLower (s : String) : String := ⟨lcList s.data⟩

def strUpper (s : String) : String := ⟨ucList s.data⟩

/-- One row of the department-grouped dataframe that `filter_metrics`
receives (output of `analyze_survey_data_from_db`), restricted to the
grouping keys, the summed count and the rate columns named by the claims;
the remaining mean columns of `aggregate_dataframe` behave exactly like
the four modelled here. -/
structure MRow where
  Department : String
  Quarter : String
  Year : ℤ
  Response_Count : ℕ
  Burnout_Rate : Option ℚ
  Turnover_Risk : Option ℚ
  eNPS : Option ℚ
  Overall_Engagement : Option ℚ

/-- One entry of `filter_metrics`' result list (same field restriction). -/
structure AggRow where
  Department : String
  Quarter : String
  Year : ℤ
  Response_Count : ℕ
  Burnout_Rate : Option ℚ
  Turnover_Risk : Option ℚ
  eNPS : Option ℚ
  Overall_Engagement : Option ℚ

/-- `metrics.py` `aggregate_dataframe`: sum columns via `int(sum)`, mean
columns via `mean` with NaN converted to `None`; `Department`, `Quarter`
and `Year` are overwritten from the arguments. -/
def aggregate_dataframe (rows : List MRow) (departmentName : String)
    (year : ℤ) (quarter : String) : AggRow :=
  { Department := departmentName
    Quarter := quarter
    Year := year
    Response_Count := (rows.map (·.Response_Count)).sum
    Burnout_Rate := meanOpt (rows.map (·.Burnout_Rate))
    Turnover_Risk := meanOpt (rows.map (·.Turnover_Risk))
    eNPS := meanOpt (rows.map (·.eNPS))
    Overall_Engagement := meanOpt (rows.map (·.Overall_Engagement)) }

/-- The literal dictionary emitted by `filter_metrics` for a quarter with
no matching rows: `Response_Count = 0` and every rate field `None`. -/
def emptyQuarterAgg (departmentName : String) (q : String) (year : ℤ) : AggRow :=
  { Department := departmentName
    Quarter := q
    Year := year
    Response_Count := 0
    Burnout_Rate := none
    Turnover_Risk := none
    eNPS := none
    Overall_Engagement := none }

/-- The dataframe reaching the per-quarter loop of the
`group_by == "quarter"` branch of `filter_metrics`: the year filter
(`df[df["Year"] == year]`), then the optional case-insensitive department
filter. -/
def fmqgFiltered (rows : List MRow) (department : Option String)
    (year : ℤ) : List MRow :=
  match department with
  | some d =>
    (rows.filter (fun r => r.Year = year)).filter
      (fun r => strLower r.Department = strLower d)
  | none => rows.filter (fun r => r.Year = year)

/-- One loop iteration of the `group_by == "quarter"` branch: the rows of
quarter `q` (`df[df["Quarter"].str.upper() == q.upper()]`), aggregated —
or the fixed placeholder entry when the quarter has no rows. -/
def fmqgEntry (rows : List MRow) (department : Option String) (year : ℤ)
    (q : String) : AggRow :=
  if ((fmqgFiltered rows department year).filter
      (fun r => strUpper r.Quarter = strUpper q)).isEmpty then
    emptyQuarterAgg (department.getD "All") q year
  else
    aggregate_dataframe
      ((fmqgFiltered rows department year).filter
        (fun r => strUpper r.Quarter = strUpper q))
      (department.getD "All") year q

/-- The `group_by == "quarter"` branch of `metrics.py` `filter_metrics`:
one entry per quarter Q1–Q4, in order. -/
def filterMetricsQuarterGroup (rows : List MRow) (department : Option String)
    (year : ℤ) : List AggRow :=
  (["Q1", "Q2", "Q3", "Q4"] : List String).map (fmqgEntry rows department year)

/-! ## Snapshot deduplication (`metrics.py` `get_metrics_summary`,
`risk_engine.py` `get_risk_summary_by_department`) -/

/-- One `Survey_Response` record as seen by the snapshot aggregations.
`subDate` models the parsed `submission_date`; ISO `YYYY-MM-DD` strings
compare chronologically, so a linearly ordered key suffices. -/
structure SRow where
  employee_id : String
  subDate : ℕ
  department : String
  engagement_rate : Option ℚ
  stress_rate : Option ℚ
  attrition_rate : Option ℚ
deriving DecidableEq

/-- The descending-date ordering used by
`sort_values(by=date, ascending=False)`. -/
def dateDescRel (a b : SRow) : Prop := b.subDate ≤ a.subDate

instance : DecidableRel dateDescRel :=
  fun a b => inferInstanceAs (Decidable (b.subDate ≤ a.subDate))

instance : IsTotal SRow dateDescRel := ⟨fun a b => Nat.le_total b.subDate a.subDate⟩

instance : IsTrans SRow dateDescRel := ⟨fun _ _ _ h1 h2 => Nat.le_trans h2 h1⟩

/-- `sort_values(by=submission_date, ascending=False)`.  pandas' default
sort is not stable; every theorem below holds for any descending
ordering, here realized by insertion sort. -/
def sortDateDesc (rows : List SRow) : List SRow := rows.insertionSort dateDescRel

/-- `drop_duplicates(subset=['employee_id'], keep='first')`: keep the
first row of each employee id, scanning front to back. -/
def dropDupSeen : List SRow → List String → List SRow
  | [], _ => []
  | r :: rest, seen =>
    if r.employee_id ∈ seen then dropDupSeen rest seen
    else r :: dropDupSeen rest (r.employee_id :: seen)

/-- The snapshot: sort by date descending, then keep the first (most
recent) row per employee.  This is the composition
`df.sort_values(by=date_col, ascending=False).drop_duplicates(subset=['employee_id'], keep='first')`
used by both snapshot-mode aggregations. -/
def dedupLatest (rows : List SRow) : List SRow := dropDupSeen (sortDateDesc rows) []

/-- The summary numbers `get_metrics_summary` derives from the snapshot
dataframe (fields whose computation reads `snapshot_df`). -/
structure SummaryData where
  totalEmployees : ℕ
  avgEngagement : ℚ
  burnoutAlerts : ℕ
  attritionRiskCount : ℕ
  teamsAtRisk : ℕ

/-- The aggregation step of `get_metrics_summary` over an arbitrary
dataframe: row count; mean engagement with NaN defaulted to 0 and rounded
to 1 decimal; counts of rows with `stress_rate > 60` and
`attrition_rate > 60`; number of departments whose mean engagement is
below 65. -/
def snapshotAgg (snap : List SRow) : SummaryData :=
  { totalEmployees := snap.length
    avgEngagement := roundHE 1 (noneToZero (meanOpt (snap.map (·.engagement_rate))))
    burnoutAlerts :=
      (snap.filter (fun r =>
        match r.stress_rate with
        | some v => v > 60
        | none => false)).length
    attritionRiskCount :=
      (snap.filter (fun r =>
        match r.attrition_rate with
        | some v => v > 60
        | none => false)).length
    teamsAtRisk :=
      (((snap.map (·.department)).dedup).filter (fun d =>
        match meanOpt ((snap.filter (fun r => r.department = d)).map (·.engagement_rate)) with
        | some m => m < 65
        | none => false)).length }

/-- `get_metrics_summary` after its date/department filters: aggregate the
deduplicated snapshot. -/
def getMetricsSummaryData (rows : List SRow) : SummaryData :=
  snapshotAgg (dedupLatest rows)

/-- The `latest_df` of `risk_engine.py` `get_risk_summary_by_department`
(step 5, when the `employee_id` and `Submission_Date` columns are
present): the same sort-then-deduplicate composition. -/
def riskSummaryLatest (rows : List SRow) : List SRow := dedupLatest rows

/-- `employee_count` returned by `get_risk_summary_by_department`. -/
def riskSummaryEmployeeCount (rows : List SRow) : ℕ := (riskSummaryLatest rows).length

/-- A concrete one-holiday table used to compare the code's season
derivation with the claimed one: 2024 has a single holiday on
2024-04-10, other years have none. -/
def holEx : HolTable := fun y =>
  if y = 2024 then [(⟨2024, 4, 10⟩, "Hari Raya".data)] else []

/-! ## Claim theorems -/

/-- C9: the Likert-to-percentage transform
`pct(x) = clip(((x - 1)/4) * 100, 0, 100)` applied by the engagement,
stress and attrition rate computations satisfies `pct(1) = 0` and
`pct(5) = 100`, is monotonically (indeed strictly) increasing on `[1, 5]`,
and always yields a value in `[0, 100]`. -/
theorem c9_pctClip_transform :
    pctClip 1 = 0 ∧ pctClip 5 = 100 ∧
    (∀ x y : ℚ, 1 ≤ x → x < y → y ≤ 5 → pctClip x < pctClip y) ∧
    (∀ x : ℚ, 0 ≤ pctClip x ∧ pctClip x ≤ 100) ∧
    (∀ row : Row, rmEngagementRate row = (rmDim row [1, 9]).map (fun d => roundHE 1 (pctClip d))) := by
  refine ⟨by norm_num [pctClip, clip0100], by norm_num [pctClip, clip0100], ?_, ?_, fun _ => rfl⟩
  · intro x y hx hxy hy
    have hxv : pctClip x = (x - 1) / 4 * 100 := by
      unfold pctClip clip0100
      rw [min_eq_right (by linarith), max_eq_right (by linarith)]
    have hyv : pctClip y = (y - 1) / 4 * 100 := by
      unfold pctClip clip0100
      rw [min_eq_right (by linarith), max_eq_right (by linarith)]
    rw [hxv, hyv]
    linarith
  · intro x
    unfold pctClip clip0100
    exact ⟨le_max_left 0 _, max_le (by norm_num) (min_le_left 100 _)⟩

/-- Witness for C9 at concrete inputs: monotonicity applied at 2 < 3 and
the range bound applied at 7. -/
theorem c9_pctClip_transform_witness :
    (1 : ℚ) ≤ 2 ∧ (2 : ℚ) < 3 ∧ (3 : ℚ) ≤ 5 ∧ pctClip 2 < pctClip 3 ∧
      0 ≤ pctClip 7 ∧ pctClip 7 ≤ 100 :=
  ⟨by norm_num, by norm_num, by norm_num,
   c9_pctClip_transform.2.2.1 2 3 (by norm_num) (by norm_num) (by norm_num),
   (c9_pctClip_transform.2.2.2.1 7).1, (c9_pctClip_transform.2.2.2.1 7).2⟩

/-- C2: `calculate_risk_label` with `metric_type='score'` returns
`healthy` iff v > 75, `watch` iff 65 < v ≤ 75, `warning` iff
55 ≤ v ≤ 65 and `critical` iff v < 55; with any other metric type it
returns `healthy` iff v ≤ 20, `watch` iff 20 < v ≤ 35, `warning` iff
35 < v ≤ 50 and `critical` iff v > 50; null/NaN input returns `healthy`.
The claim's boundary examples 75.01, 75.0, 65.0 and 54.99 are included. -/
theorem c2_calculate_risk_label_thresholds :
    (∀ v : ℚ,
      (calculate_risk_label (some v) "score" = "healthy" ↔ 75 < v) ∧
      (calculate_risk_label (some v) "score" = "watch" ↔ 65 < v ∧ v ≤ 75) ∧
      (calculate_risk_label (some v) "score" = "warning" ↔ 55 ≤ v ∧ v ≤ 65) ∧
      (calculate_risk_label (some v) "score" = "critical" ↔ v < 55)) ∧
    (∀ (v : ℚ) (mt : String), mt ≠ "score" →
      (calculate_risk_label (some v) mt = "healthy" ↔ v ≤ 20) ∧
      (calculate_risk_label (some v) mt = "watch" ↔ 20 < v ∧ v ≤ 35) ∧
      (calculate_risk_label (some v) mt = "warning" ↔ 35 < v ∧ v ≤ 50) ∧
      (calculate_risk_label (some v) mt = "critical" ↔ 50 < v)) ∧
    (∀ mt : String, calculate_risk_label none mt = "healthy") ∧
    calculate_risk_label (some 75.01) "score" = "healthy" ∧
    calculate_risk_label (some 75) "score" = "watch" ∧
    calculate_risk_label (some 65) "score" = "warning" ∧
    calculate_risk_label (some 54.99) "score" = "critical" := by
  refine ⟨?_, ?_, fun _ => rfl,
    by norm_num [calculate_risk_label], by norm_num [calculate_risk_label],
    by norm_num [calculate_risk_label], by norm_num [calculate_risk_label]⟩
  · intro v
    have h : calculate_risk_label (some v) "score" =
        if v > 75 then "healthy" else if v > 65 then "watch"
        else if v ≥ 55 then "warning" else "critical" := rfl
    rw [h]
    split_ifs with h1 h2 h3 <;> simp_all <;> first
      | (constructor <;> intros <;> linarith)
      | linarith
  · intro v mt hmt
    have h : calculate_risk_label (some v) mt =
        if v ≤ 20 then "healthy" else if v ≤ 35 then "watch"
        else if v ≤ 50 then "warning" else "critical" := by
      show (if mt = "score" then _ else _) = _
      rw [if_neg hmt]
    rw [h]
    split_ifs with h1 h2 h3 <;> simp_all <;> first
      | (constructor <;> intros <;> linarith)
      | linarith

/-- Witness for C2 at concrete inputs: the lower-is-better table applied
at `metric_type = "burnout"` and value 10. -/
theorem c2_calculate_risk_label_thresholds_witness :
    ("burnout" : String) ≠ "score" ∧
      calculate_risk_label (some 10) "burnout" = "healthy" :=
  ⟨by simp,
   (c2_calculate_risk_label_thresholds.2.1 10 "burnout" (by simp)).1.mpr (by norm_num)⟩

/-- C10: the `overall_risk` written per department by the CSV-upload sync
takes only the values `critical`, `warning`, `healthy` (never `watch`);
it is `critical` iff engagement < 55 or stress > 50 or attrition > 50,
else `warning` iff engagement < 65 or stress > 35 or attrition > 35,
else `healthy`, where a missing mean rate is treated as 0 — in
particular a department with no engagement data is `critical`. -/
theorem c10_dept_overall_risk (rows : List DeptRow) :
    (deptOverallRisk rows = "critical" ∨ deptOverallRisk rows = "warning" ∨
       deptOverallRisk rows = "healthy") ∧
    deptOverallRisk rows ≠ "watch" ∧
    (deptOverallRisk rows = "critical" ↔
      noneToZero (deptMeanRates rows).1 < 55 ∨
      noneToZero (deptMeanRates rows).2.2 > 50 ∨
      noneToZero (deptMeanRates rows).2.1 > 50) ∧
    (deptOverallRisk rows = "warning" ↔
      ¬(noneToZero (deptMeanRates rows).1 < 55 ∨
        noneToZero (deptMeanRates rows).2.2 > 50 ∨
        noneToZero (deptMeanRates rows).2.1 > 50) ∧
      (noneToZero (deptMeanRates rows).1 < 65 ∨
       noneToZero (deptMeanRates rows).2.2 > 35 ∨
       noneToZero (deptMeanRates rows).2.1 > 35)) ∧
    (deptOverallRisk rows = "healthy" ↔
      65 ≤ noneToZero (deptMeanRates rows).1 ∧
      noneToZero (deptMeanRates rows).2.2 ≤ 35 ∧
      noneToZero (deptMeanRates rows).2.1 ≤ 35) ∧
    ((deptMeanRates rows).1 = none → deptOverallRisk rows = "critical") := by
  set e := noneToZero (deptMeanRates rows).1 with he
  set a := noneToZero (deptMeanRates rows).2.1 with ha
  set s := noneToZero (deptMeanRates rows).2.2 with hs
  have hd : deptOverallRisk rows =
      if e < 55 ∨ s > 50 ∨ a > 50 then "critical"
      else if e < 65 ∨ s > 35 ∨ a > 35 then "warning" else "healthy" := rfl
  rw [hd]
  refine ⟨?_, ?_, ?_, ?_, ?_, ?_⟩
  · split_ifs <;> simp
  · split_ifs <;> simp
  · split_ifs with h1 h2 <;> simp_all
  · split_ifs with h1 h2 <;> simp_all [not_or, not_lt]
  · split_ifs with h1 h2 <;> simp_all [not_or, not_lt] <;>
      first
      | (intro hx hy; rcases h1 with h | h | h <;> linarith)
      | (intro hx hy; obtain ⟨e1, e2, e3⟩ := h1; rcases h2 with h | h | h <;> linarith)
  · intro hnone
    rw [if_pos]
    left
    rw [he, hnone]
    norm_num [noneToZero]

/-- Witness for C10: a one-row department with rates (80, 10, 12) is
`healthy`; a department whose engagement data is entirely missing is
`critical`. -/
theorem c10_dept_overall_risk_witness :
    deptOverallRisk [⟨some 80, some 10, some 12⟩] = "healthy" ∧
    deptOverallRisk [⟨none, some 10, some 12⟩] = "critical" := by
  constructor
  · exact (c10_dept_overall_risk _).2.2.2.2.1.mpr
      (by norm_num [deptMeanRates, meanOpt, List.filterMap, safeDec, roundHU, noneToZero])
  · exact (c10_dept_overall_risk _).2.2.2.2.2
      (by norm_num [deptMeanRates, meanOpt, List.filterMap, safeDec])

/-- C1: `generate_ai_summary` runs every LLM response through
`clean_llm_json` (strip fences, cut to first `...` last brace, strip
control characters, normalize smart quotes, JSON-parse) and returns the
fixed placeholder whenever cleaning/parsing fails — or whenever the LLM
call itself fails — never propagating an exception; the fenced example
parses to the `summary: ok` object, and `not json at all` yields the
placeholder. -/
theorem c1_insight_json_repair :
    (∀ raw : List Char, clean_llm_json (pyStrip raw) = none →
      generate_ai_summary (some raw) = placeholderSummary) ∧
    (∀ (raw : List Char) (j : Json), clean_llm_json (pyStrip raw) = some j →
      generate_ai_summary (some raw) = j) ∧
    generate_ai_summary none = placeholderSummary ∧
    clean_llm_json ("```json\n\x7b\"summary\": \"ok\"\x7d\n```".data) =
      some (.jobj [("summary".data, .jstr "ok".data)]) ∧
    generate_ai_summary (some "not json at all".data) = placeholderSummary := by
  refine ⟨?_, ?_, rfl, rfl, rfl⟩
  · intro raw h
    have hg : generate_ai_summary (some raw) =
        match clean_llm_json (pyStrip raw) with
        | some j => j
        | none => placeholderSummary := rfl
    rw [hg, h]
  · intro raw j h
    have hg : generate_ai_summary (some raw) =
        match clean_llm_json (pyStrip raw) with
        | some j => j
        | none => placeholderSummary := rfl
    rw [hg, h]

/-- Witness for C1: the fallback branch applied at the concrete input
`not json at all`, whose cleaning fails. -/
theorem c1_insight_json_repair_witness :
    generate_ai_summary (some ("not json at all" ++ "!").data) = placeholderSummary :=
  c1_insight_json_repair.1 ("not json at all" ++ "!").data (by rfl)

/-- C4: the `group_by='quarter'` result has exactly one entry per quarter
Q1–Q4 (after the year and optional department filters), and a quarter
with zero matching rows gets an entry with `Response_Count = 0` and all
rate fields `None`, not 0. -/
theorem c4_filter_metrics_quarter_group (rows : List MRow)
    (department : Option String) (year : ℤ) :
    (filterMetricsQuarterGroup rows department year).map AggRow.Quarter
        = ["Q1", "Q2", "Q3", "Q4"] ∧
    (∀ q ∈ (["Q1", "Q2", "Q3", "Q4"] : List String),
      ((filterMetricsQuarterGroup rows department year).filter
        (fun a => a.Quarter = q)).length = 1) ∧
    (∀ q : String, ∀ entry ∈ filterMetricsQuarterGroup rows department year,
      entry.Quarter = q →
      ((fmqgFiltered rows department year).filter
        (fun r => strUpper r.Quarter = strUpper q)).isEmpty = true →
      entry.Response_Count = 0 ∧ entry.Burnout_Rate = none ∧
      entry.Turnover_Risk = none ∧ entry.eNPS = none ∧
      entry.Overall_Engagement = none) := by
  have hq : ∀ q, (fmqgEntry rows department year q).Quarter = q := by
    intro q
    unfold fmqgEntry
    split_ifs <;> rfl
  refine ⟨?_, ?_, ?_⟩
  · simp [filterMetricsQuarterGroup, hq]
  · intro q hmem
    fin_cases hmem <;> simp [filterMetricsQuarterGroup, List.filter_cons, hq]
  · intro q entry hmem hquart hempty
    have hmem' : entry = fmqgEntry rows department year "Q1" ∨
        entry = fmqgEntry rows department year "Q2" ∨
        entry = fmqgEntry rows department year "Q3" ∨
        entry = fmqgEntry rows department year "Q4" := by
      simpa [filterMetricsQuarterGroup] using hmem
    rcases hmem' with h | h | h | h <;>
      (subst h
       rw [hq] at hquart
       subst hquart
       unfold fmqgEntry
       rw [if_pos hempty]
       exact ⟨rfl, rfl, rfl, rfl, rfl⟩)

/-- Witness for C4: with no rows at all, the Q3 entry of the quarter
grouping is the null placeholder. -/
theorem c4_filter_metrics_quarter_group_witness :
    (fmqgEntry ([] : List MRow) none 2024 "Q3").Response_Count = 0 ∧
    (fmqgEntry ([] : List MRow) none 2024 "Q3").Burnout_Rate = none ∧
    (fmqgEntry ([] : List MRow) none 2024 "Q3").Turnover_Risk = none ∧
    (fmqgEntry ([] : List MRow) none 2024 "Q3").eNPS = none ∧
    (fmqgEntry ([] : List MRow) none 2024 "Q3").Overall_Engagement = none :=
  (c4_filter_metrics_quarter_group ([] : List MRow) none 2024).2.2 "Q3"
    (fmqgEntry ([] : List MRow) none 2024 "Q3")
    (by simp [filterMetricsQuarterGroup]) rfl rfl

/-- Counterexample for C7: for the invalid date `not-a-date`, the derived
`quarter`, `month` and `year` are null as claimed, but `event_season` is
the string `"normal day"`, not null — so "all derived temporal fields are
null" is false. -/
theorem c7_event_season_not_null_counterexample :
    rowQuarter (some "not-a-date".data) = none ∧
    rowMonth (some "not-a-date".data) = none ∧
    rowYear (some "not-a-date".data) = none ∧
    rowEventSeason (fun _ => []) (some "not-a-date".data) = some "normal day".data ∧
    rowEventSeason (fun _ => []) (some "not-a-date".data) ≠ none :=
  ⟨by decide, by decide, by decide, by decide, by decide⟩

/-- C7 (amended): for a record whose `submission_date` is not a valid
date, the derived `quarter`, `month` and `year` are null, while
`event_season` falls back to the string `"normal day"` rather than null. -/
theorem c7_invalid_date_temporal_fields (hol : HolTable) (s : List Char)
    (h1 : parseYmd s = none) (h2 : parseDateLenient s = none) :
    rowQuarter (some s) = none ∧
    rowMonth (some s) = none ∧
    rowYear (some s) = none ∧
    rowEventSeason hol (some s) = some "normal day".data := by
  refine ⟨?_, ?_, ?_, ?_⟩
  · show get_quarter s = none
    unfold get_quarter
    rw [h1]
    rfl
  · show (parseDateLenient s).map _ = none
    rw [h2]
    rfl
  · show (parseDateLenient s).map _ = none
    rw [h2]
    rfl
  · show (match parseYmd s with
      | none => some "normal day".data
      | some d => some (joinComma (classify_festival_date hol d seasonDefaultYear))) = _
    rw [h1]

/-- Witness for C7 (amended) at the concrete invalid date `99/99`. -/
theorem c7_invalid_date_temporal_fields_witness :
    rowQuarter (some "99/99".data) = none ∧
    rowMonth (some "99/99".data) = none ∧
    rowYear (some "99/99".data) = none ∧
    rowEventSeason (fun _ => []) (some "99/99".data) = some "normal day".data :=
  c7_invalid_date_temporal_fields (fun _ => []) "99/99".data (by decide) (by decide)

/-- Counterexample for C8: with a holiday table whose only 2024 holiday is
2024-04-10 (and no 2026 holidays), the code's `event_season` for the
record dated 2024-04-10 is `"normal day"` — because
`calculate_row_metrics` calls `classify_festival_date` without a year, so
the default `year=2026` is used — whereas classification against the
date's own calendar year would give `"festival: Hari Raya"`. -/
theorem c8_event_season_year_counterexample :
    rowEventSeason holEx (some "2024-04-10".data) = some "normal day".data ∧
    specEventSeasonOwnYear holEx (some "2024-04-10".data)
      = some "festival: Hari Raya".data ∧
    rowEventSeason holEx (some "2024-04-10".data)
      ≠ specEventSeasonOwnYear holEx (some "2024-04-10".data) :=
  ⟨by decide, by decide, by decide⟩

/-- C8 (amended): `event_season` is derived from the public holidays of
the year *parameter* of `classify_festival_date`, which defaults to 2026;
`calculate_row_metrics` omits the argument, so every record is classified
against 2026's holidays regardless of its own date (the upload path does
pass the date's own year).  The per-holiday rule is as claimed: a
day-difference of 0 contributes `festival: <name>`, one in [-15,-1]
contributes `pre-festival: <name>`, one in [1,15] contributes
`post-festival: <name>`, and with no matching holiday the value is
`normal day`. -/
theorem c8_event_season_classification :
    (∀ (hol : HolTable) (s : List Char) (d : Ymd), parseYmd s = some d →
      rowEventSeason hol (some s) =
        some (joinComma (classify_festival_date hol d seasonDefaultYear))) ∧
    seasonDefaultYear = 2026 ∧
    (∀ (hol : HolTable) (d : Ymd),
      uploadEventSeason hol d = joinComma (classify_festival_date hol d d.year)) ∧
    (∀ (hol : HolTable) (d : Ymd) (y : ℤ) (hd : Ymd) (name : List Char),
      (hd, name) ∈ hol y →
      (daysFromCivil d - daysFromCivil hd = 0 →
        ("festival: ".data ++ name) ∈ classify_festival_date hol d y) ∧
      (-15 ≤ daysFromCivil d - daysFromCivil hd ∧ daysFromCivil d - daysFromCivil hd < 0 →
        ("pre-festival: ".data ++ name) ∈ classify_festival_date hol d y) ∧
      (0 < daysFromCivil d - daysFromCivil hd ∧ daysFromCivil d - daysFromCivil hd ≤ 15 →
        ("post-festival: ".data ++ name) ∈ classify_festival_date hol d y)) ∧
    (∀ (hol : HolTable) (d : Ymd) (y : ℤ),
      (∀ p ∈ hol y,
        daysFromCivil d - daysFromCivil p.1 ≠ 0 ∧
        ¬(-15 ≤ daysFromCivil d - daysFromCivil p.1 ∧
          daysFromCivil d - daysFromCivil p.1 < 0) ∧
        ¬(0 < daysFromCivil d - daysFromCivil p.1 ∧
          daysFromCivil d - daysFromCivil p.1 ≤ 15)) →
      classify_festival_date hol d y = ["normal day".data]) := by
  refine ⟨?_, rfl, fun _ _ => rfl, ?_, ?_⟩
  · intro hol s d h
    show (match parseYmd s with
      | none => some "normal day".data
      | some d => some (joinComma (classify_festival_date hol d seasonDefaultYear))) = _
    rw [h]
  · intro hol d y hd name hmem
    refine ⟨?_, ?_, ?_⟩ <;> intro hw <;> unfold classify_festival_date
    · have hm : ("festival: ".data ++ name) ∈
          (hol y).filterMap (fun h =>
            let diff := daysFromCivil d - daysFromCivil h.1
            if diff = 0 then some ("festival: ".data ++ h.2)
            else if -15 ≤ diff ∧ diff < 0 then some ("pre-festival: ".data ++ h.2)
            else if 0 < diff ∧ diff ≤ 15 then some ("post-festival: ".data ++ h.2)
            else none) := by
        refine List.mem_filterMap.mpr ⟨(hd, name), hmem, ?_⟩
        simp [hw]
      rw [if_neg]
      · exact hm
      · simpa [List.isEmpty_iff] using List.ne_nil_of_mem hm
    · have hm : ("pre-festival: ".data ++ name) ∈
          (hol y).filterMap (fun h =>
            let diff := daysFromCivil d - daysFromCivil h.1
            if diff = 0 then some ("festival: ".data ++ h.2)
            else if -15 ≤ diff ∧ diff < 0 then some ("pre-festival: ".data ++ h.2)
            else if 0 < diff ∧ diff ≤ 15 then some ("post-festival: ".data ++ h.2)
            else none) := by
        refine List.mem_filterMap.mpr ⟨(hd, name), hmem, ?_⟩
        have h0 : daysFromCivil d - daysFromCivil hd ≠ 0 := by omega
        simp only []
        rw [if_neg h0, if_pos hw]
      rw [if_neg]
      · exact hm
      · simpa [List.isEmpty_iff] using List.ne_nil_of_mem hm
    · have hm : ("post-festival: ".data ++ name) ∈
          (hol y).filterMap (fun h =>
            let diff := daysFromCivil d - daysFromCivil h.1
            if diff = 0 then some ("festival: ".data ++ h.2)
            else if -15 ≤ diff ∧ diff < 0 then some ("pre-festival: ".data ++ h.2)
            else if 0 < diff ∧ diff ≤ 15 then some ("post-festival: ".data ++ h.2)
            else none) := by
        refine List.mem_filterMap.mpr ⟨(hd, name), hmem, ?_⟩
        have h0 : daysFromCivil d - daysFromCivil hd ≠ 0 := by omega
        have h1 : ¬(-15 ≤ daysFromCivil d - daysFromCivil hd ∧
            daysFromCivil d - daysFromCivil hd < 0) := by omega
        simp only []
        rw [if_neg h0, if_neg h1, if_pos hw]
      rw [if_neg]
      · exact hm
      · simpa [List.isEmpty_iff] using List.ne_nil_of_mem hm
  · intro hol d y hnone
    unfold classify_festival_date
    have hnil : (hol y).filterMap (fun h =>
        let diff := daysFromCivil d - daysFromCivil h.1
        if diff = 0 then some ("festival: ".data ++ h.2)
        else if -15 ≤ diff ∧ diff < 0 then some ("pre-festival: ".data ++ h.2)
        else if 0 < diff ∧ diff ≤ 15 then some ("post-festival: ".data ++ h.2)
        else none) = [] := by
      rw [List.filterMap_eq_nil_iff]
      intro p hp
      obtain ⟨h1, h2, h3⟩ := hnone p hp
      simp only []
      rw [if_neg h1, if_neg h2, if_neg h3]
    rw [hnil]
    rfl

/-- Witness for C8 (amended): the default-year derivation and the
festival-day membership applied at concrete inputs. -/
theorem c8_event_season_classification_witness :
    rowEventSeason holEx (some "2024-04-10".data) =
      some (joinComma (classify_festival_date holEx ⟨2024, 4, 10⟩ seasonDefaultYear)) ∧
    ("festival: Hari Raya".data ∈ classify_festival_date holEx ⟨2024, 4, 10⟩ 2024) :=
  ⟨c8_event_season_classification.1 holEx "2024-04-10".data ⟨2024, 4, 10⟩ (by decide),
   ((c8_event_season_classification.2.2.2.1 holEx ⟨2024, 4, 10⟩ 2024 ⟨2024, 4, 10⟩
      "Hari Raya".data (by decide)).1 (by decide))⟩

/-- Counterexample for C5: `calculate_survey_metrics` on a row with a Q12
column but no Q1 column sets `attrition_rate = 0.0`, not null — its
`try/except` handler assigns `0.0` where the claim says null. -/
theorem c5_attrition_zero_counterexample :
    svAttritionRate [("Q12_Career_Opp".data, some 3)] = some 0 ∧
    svAttritionRate [("Q12_Career_Opp".data, some 3)] ≠ none :=
  ⟨by decide, by decide⟩

/-- C5 (amended): when both a Q1- and a Q12-matched question column are
present with values, both attrition computations yield
`clip(((6 − (Q1 + Q12)/2) − 1)/4 × 100, 0, 100)` rounded to 1 decimal;
when the Q1 or Q12 column is absent, `calculate_row_metrics` yields null
but `calculate_survey_metrics` yields `0.0`. -/
theorem c5_attrition_rate_formula :
    (∀ (row : Row) (c1 c12 : List Char) (a b : ℚ), rmRowOk row = true →
      rmGetCol row 1 = some c1 → rmGetCol row 12 = some c12 →
      cellVal row c1 = some a → cellVal row c12 = some b →
      rmAttritionRate row =
        some (roundHE 1 (clip0100 ((6 - (a + b) / 2 - 1) / 4 * 100)))) ∧
    (∀ row : Row, rmRowOk row = true →
      rmGetCol row 1 = none ∨ rmGetCol row 12 = none →
      rmAttritionRate row = none) ∧
    (∀ (row : Row) (c1 c12 : List Char) (a b : ℚ),
      svQ1Col row = some c1 → svQ12Col row = some c12 →
      cellVal row c1 = some a → cellVal row c12 = some b →
      svAttritionRate row =
        some (roundHE 1 (clip0100 ((6 - (a + b) / 2 - 1) / 4 * 100)))) ∧
    (∀ row : Row, svQ1Col row = none ∨ svQ12Col row = none →
      svAttritionRate row = some 0) := by
  refine ⟨?_, ?_, ?_, ?_⟩
  · intro row c1 c12 a b _ h1 h12 hv1 hv2
    unfold rmAttritionRate
    rw [h1, h12]
    dsimp only
    rw [hv1, hv2]
    rfl
  · intro row _ h
    unfold rmAttritionRate
    rcases hh : rmGetCol row 1 with _ | c1
    · rfl
    · rcases h with h | h
      · rw [hh] at h
        exact absurd h (by simp)
      · rw [h]
  · intro row c1 c12 a b h1 h12 hv1 hv2
    unfold svAttritionRate
    rw [h1, h12]
    dsimp only
    rw [hv1, hv2]
    rfl
  · intro row h
    unfold svAttritionRate
    rcases hh : svQ1Col row with _ | c1
    · rfl
    · rcases h with h | h
      · rw [hh] at h
        exact absurd h (by simp)
      · rw [h]

/-- Witness for C5 (amended): the formula applied to a concrete row with
Q1 = 2 and Q12 = 4, and the `0.0` default applied to the Q1-less row. -/
theorem c5_attrition_rate_formula_witness :
    rmAttritionRate
        [("Q1_Recommend".data, some 2), ("Q3_Enablement_Tools".data, some 3),
         ("Q7_Diversity_Inclusion".data, some 3), ("Q9_Proud_Work".data, some 4),
         ("Q12_Career_Opp".data, some 4)] =
      some (roundHE 1 (clip0100 ((6 - ((2 : ℚ) + 4) / 2 - 1) / 4 * 100))) ∧
    svAttritionRate [("Q12_Career_Opp".data, some 3)] = some 0 :=
  ⟨c5_attrition_rate_formula.1 _ "Q1_Recommend".data "Q12_Career_Opp".data 2 4
    (by decide) (by decide) (by decide) (by decide) (by decide),
   c5_attrition_rate_formula.2.2.2 _ (Or.inl (by decide))⟩

/-- Counterexample for C6: `upload.py` `calculate_dimensions` does *not*
round the dimension mean to 2 decimals.  For Q3 = 1, Q11 = 2, Q29 = 2 it
yields `Dim_Enablement = 5/3 = 1.666...`, while the claimed rounded value
is `1.67`. -/
theorem c6_upload_dim_unrounded_counterexample :
    upDim
      [("Q3_Enablement_Tools".data, some 1), ("Q11_Systems_Process".data, some 2),
       ("Q29_Health_Safety".data, some 2)]
      ["Q3_Enablement_Tools".data, "Q11_Systems_Process".data, "Q29_Health_Safety".data]
      = some (5/3) ∧
    (meanOpt [some (1 : ℚ), some 2, some 2]).map (roundHE 2) = some (167/100) ∧
    upDim
      [("Q3_Enablement_Tools".data, some 1), ("Q11_Systems_Process".data, some 2),
       ("Q29_Health_Safety".data, some 2)]
      ["Q3_Enablement_Tools".data, "Q11_Systems_Process".data, "Q29_Health_Safety".data]
      ≠ (meanOpt [some (1 : ℚ), some 2, some 2]).map (roundHE 2) := by
  have hcols : (["Q3_Enablement_Tools".data, "Q11_Systems_Process".data,
      "Q29_Health_Safety".data].filterMap
        (upGetCol [("Q3_Enablement_Tools".data, some 1),
          ("Q11_Systems_Process".data, some 2), ("Q29_Health_Safety".data, some 2)]))
      = ["Q3_Enablement_Tools".data, "Q11_Systems_Process".data,
         "Q29_Health_Safety".data] := by decide
  have hvals : (["Q3_Enablement_Tools".data, "Q11_Systems_Process".data,
      "Q29_Health_Safety".data].map
        (cellVal [("Q3_Enablement_Tools".data, some 1),
          ("Q11_Systems_Process".data, some 2), ("Q29_Health_Safety".data, some 2)]))
      = [some 1, some 2, some 2] := by decide
  have hup : upDim
      [("Q3_Enablement_Tools".data, some 1), ("Q11_Systems_Process".data, some 2),
       ("Q29_Health_Safety".data, some 2)]
      ["Q3_Enablement_Tools".data, "Q11_Systems_Process".data, "Q29_Health_Safety".data]
      = meanOpt [some 1, some 2, some 2] := by
    unfold upDim
    rw [hcols, if_neg (by decide), hvals]
  have hmean : meanOpt [some (1 : ℚ), some 2, some 2] = some (5/3) := by
    norm_num [meanOpt, List.filterMap]
  have hround : roundHE 2 (5/3 : ℚ) = 167/100 := by
    norm_num [roundHE]
  refine ⟨by rw [hup, hmean], by rw [hmean]; simp [hround], ?_⟩
  rw [hup, hmean]
  simp [hround]
  norm_num

/-- C6 (amended): on a row carrying the full canonical question columns,
every dimension is the arithmetic mean of the cell values of its mapped
columns (matched by numeric question-index, absent values skipped by the
mean), *rounded to 2 decimals* in `calculate_row_metrics` and
`calculate_survey_metrics` — but `upload.py` `calculate_dimensions`
returns the same mean unrounded (values are only quantized later, at
storage time). -/
theorem c6_dimension_mean (v : List Char → Option ℚ) :
    (∀ p ∈ rmDimMap,
      rmDim (canonRow v) p.2 =
        (meanOpt ((p.2.map canonName).map v)).map (roundHE 2)) ∧
    (∀ p ∈ svDimMap,
      svDim (canonRow v) p.2 = (meanOpt (p.2.map v)).map (roundHE 2)) ∧
    (∀ p ∈ upDimMap, upDim (canonRow v) p.2 = meanOpt (p.2.map v)) := by
  refine ⟨?_, ?_, ?_⟩ <;> intro p hp <;> fin_cases hp <;> rfl

/-- Witness for C6 (amended) at the constant row `v = 4`:
`Dim_Employee_Engagement` as computed by `calculate_row_metrics`. -/
theorem c6_dimension_mean_witness :
    rmDim (canonRow (fun _ => some 4)) [1, 9] =
      (meanOpt (([1, 9].map canonName).map (fun _ => some (4 : ℚ)))).map (roundHE 2) :=
  (c6_dimension_mean (fun _ => some 4)).1 ("Dim_Employee_Engagement".data, [1, 9])
    (by decide)

/-- Every row kept by `dropDupSeen` comes from the input list. -/
theorem dds_subset (l : List SRow) (seen : List String) :
    ∀ r ∈ dropDupSeen l seen, r ∈ l := by
  induction l generalizing seen with
  | nil => simp [dropDupSeen]
  | cons a t ih =>
    intro r hr
    by_cases h : a.employee_id ∈ seen
    · rw [dropDupSeen, if_pos h] at hr
      exact List.mem_cons_of_mem _ (ih seen r hr)
    · rw [dropDupSeen, if_neg h] at hr
      rcases List.mem_cons.mp hr with h1 | h1
      · exact h1 ▸ List.mem_cons_self _ _
      · exact List.mem_cons_of_mem _ (ih _ r h1)

/-- `dropDupSeen` keeps no row of an employee already seen. -/
theorem dds_filter_of_mem (l : List SRow) (seen : List String) (e : String)
    (he : e ∈ seen) :
    (dropDupSeen l seen).filter (fun r => r.employee_id = e) = [] := by
  induction l generalizing seen with
  | nil => simp [dropDupSeen]
  | cons a t ih =>
    by_cases h : a.employee_id ∈ seen
    · rw [dropDupSeen, if_pos h]
      exact ih seen he
    · rw [dropDupSeen, if_neg h, List.filter_cons]
      have hne : ¬(a.employee_id = e) := fun hh => h (hh ▸ he)
      rw [if_neg (by simpa using hne)]
      exact ih (a.employee_id :: seen) (List.mem_cons_of_mem _ he)

/-- For an employee not yet seen, `dropDupSeen` keeps exactly the first of
that employee's rows. -/
theorem dds_filter_not_mem (l : List SRow) (seen : List String) (e : String)
    (he : e ∉ seen) :
    (dropDupSeen l seen).filter (fun r => r.employee_id = e) =
      (l.filter (fun r => r.employee_id = e)).take 1 := by
  induction l generalizing seen with
  | nil => simp [dropDupSeen]
  | cons a t ih =>
    by_cases h : a.employee_id ∈ seen
    · have hne : ¬(a.employee_id = e) := fun hh => he (hh ▸ h)
      rw [dropDupSeen, if_pos h, List.filter_cons, if_neg (by simpa using hne)]
      exact ih seen he
    · by_cases hae : a.employee_id = e
      · rw [dropDupSeen, if_neg h, List.filter_cons, List.filter_cons,
          if_pos (by simpa using hae), if_pos (by simpa using hae),
          dds_filter_of_mem t _ e (hae ▸ List.mem_cons_self _ _)]
        simp
      · rw [dropDupSeen, if_neg h, List.filter_cons, List.filter_cons,
          if_neg (by simpa using hae), if_neg (by simpa using hae)]
        exact ih (a.employee_id :: seen)
          (by simp [he]; exact fun hh => hae hh.symm)

/-- C3: in snapshot-mode aggregation, each employee present in the
filtered data keeps exactly one row — one of their own rows with the
maximal (most recent) submission date — and the summary metrics of
`get_metrics_summary` and the `latest_df` of
`get_risk_summary_by_department` are computed from exactly that
deduplicated snapshot. -/
theorem c3_snapshot_dedup (rows : List SRow) (e : String)
    (he : e ∈ rows.map SRow.employee_id) :
    ((dedupLatest rows).filter (fun r => r.employee_id = e)).length = 1 ∧
    (∀ r ∈ dedupLatest rows, r.employee_id = e →
      r ∈ rows ∧ ∀ x ∈ rows, x.employee_id = e → x.subDate ≤ r.subDate) ∧
    getMetricsSummaryData rows = snapshotAgg (dedupLatest rows) ∧
    riskSummaryLatest rows = dedupLatest rows := by
  have hperm : (sortDateDesc rows).Perm rows := List.perm_insertionSort _ _
  have hsort : (sortDateDesc rows).Sorted dateDescRel :=
    List.sorted_insertionSort _ _
  have hfe : (dedupLatest rows).filter (fun r => r.employee_id = e) =
      ((sortDateDesc rows).filter (fun r => r.employee_id = e)).take 1 :=
    dds_filter_not_mem _ [] e (by simp)
  obtain ⟨x0, hx0, hx0e⟩ : ∃ x ∈ rows, x.employee_id = e := by
    simpa using he
  have hfne : (sortDateDesc rows).filter (fun r => r.employee_id = e) ≠ [] := by
    intro hnil
    have hx0f : x0 ∈ (sortDateDesc rows).filter (fun r => r.employee_id = e) :=
      List.mem_filter.mpr ⟨hperm.mem_iff.mpr hx0, by simp [hx0e]⟩
    rw [hnil] at hx0f
    exact absurd hx0f (List.not_mem_nil x0)
  refine ⟨?_, ?_, rfl, rfl⟩
  · rw [hfe]
    cases hf : (sortDateDesc rows).filter (fun r => r.employee_id = e) with
    | nil => exact absurd hf hfne
    | cons a t => simp
  · intro r hr hre
    refine ⟨hperm.mem_iff.mp (dds_subset _ [] r hr), ?_⟩
    intro x hx hxe
    have hrf : r ∈ (dedupLatest rows).filter (fun r => r.employee_id = e) :=
      List.mem_filter.mpr ⟨hr, by simp [hre]⟩
    rw [hfe] at hrf
    cases hf : (sortDateDesc rows).filter (fun r => r.employee_id = e) with
    | nil => exact absurd hf hfne
    | cons a t =>
      rw [hf] at hrf
      simp at hrf
      subst hrf
      have hxf : x ∈ (sortDateDesc rows).filter (fun r => r.employee_id = e) :=
        List.mem_filter.mpr ⟨hperm.mem_iff.mpr hx, by simp [hxe]⟩
      rw [hf] at hxf
      rcases List.mem_cons.mp hxf with h1 | h1
      · subst h1; exact le_refl _
      · have hps : ((sortDateDesc rows).filter
            (fun r => r.employee_id = e)).Pairwise dateDescRel :=
          List.Pairwise.filter _ hsort
        rw [hf] at hps
        exact (List.pairwise_cons.mp hps).1 x h1

/-- Witness for C3 at the spec's example: employee `E1` with submissions
dated 2024-01-01 (engagement 40) and 2024-06-01 (engagement 80); only the
2024-06-01 row is retained, and the snapshot average engagement is its
value 80. -/
theorem c3_snapshot_dedup_witness :
    ((dedupLatest
        [⟨"E1", 20240101, "Ops", some 40, none, none⟩,
         ⟨"E1", 20240601, "Ops", some 80, none, none⟩]).filter
      (fun r => r.employee_id = "E1")).length = 1 ∧
    dedupLatest
        [⟨"E1", 20240101, "Ops", some 40, none, none⟩,
         ⟨"E1", 20240601, "Ops", some 80, none, none⟩]
      = [⟨"E1", 20240601, "Ops", some 80, none, none⟩] ∧
    (getMetricsSummaryData
        [⟨"E1", 20240101, "Ops", some 40, none, none⟩,
         ⟨"E1", 20240601, "Ops", some 80, none, none⟩]).avgEngagement = 80 := by
  refine ⟨(c3_snapshot_dedup
      [⟨"E1", 20240101, "Ops", some 40, none, none⟩,
       ⟨"E1", 20240601, "Ops", some 80, none, none⟩] "E1" (by simp)).1,
    by decide, ?_⟩
  have hd : dedupLatest
      [⟨"E1", 20240101, "Ops", some 40, none, none⟩,
       ⟨"E1", 20240601, "Ops", some 80, none, none⟩]
      = [⟨"E1", 20240601, "Ops", some 80, none, none⟩] := by decide
  show (snapshotAgg (dedupLatest _)).avgEngagement = 80
  rw [hd]
  norm_num [snapshotAgg, meanOpt, List.filterMap, noneToZero, roundHE]
